import Mathlib

/-!
Verification of the data-indexing layer (`DataInfo`, `libreco/data/data_info.py`)
and the neighborhood collaborative-filtering engine (`CfBase`,
`libreco/bases/cf_base.py`) of the LibRecommender repository, via a shallow
embedding: matrices are lists of rows, data frames are records of columns,
and the numpy helpers used by the source are modelled exactly
(`np.setdiff1d` returns the sorted unique values of its first argument that
are absent from the second).
-/

namespace LibRec

/-- `np.setdiff1d(data, vals)`: the sorted unique values of `data` that are
not in `vals`. -/
def setdiff1d (data vals : List Int) : List Int :=
  List.insertionSort (fun a b => a ≤ b)
    ((data.filter (fun x => decide (x ∉ vals))).dedup)

/-- The novel ids of `data` relative to `vals` in first-encounter order.
This follows the spec's words ("appends only the novel ones, in the order
encountered"), to be compared with `setdiff1d`, which the source uses. -/
def novelIdsInEncounterOrder (data vals : List Int) : List Int :=
  (data.filter (fun x => decide (x ∉ vals))).dedup

theorem mem_setdiff1d (x : Int) (data vals : List Int) :
    x ∈ setdiff1d data vals ↔ x ∈ data ∧ x ∉ vals := by
  unfold setdiff1d
  rw [(List.perm_insertionSort _ _).mem_iff, List.mem_dedup, List.mem_filter]
  simp

theorem setdiff1d_append_self (data vals : List Int) :
    setdiff1d data (vals ++ setdiff1d data vals) = [] := by
  rw [List.eq_nil_iff_forall_not_mem]
  intro x hx
  rcases (mem_setdiff1d _ _ _).mp hx with ⟨hd, hn⟩
  rcases Decidable.em (x ∈ vals) with hv | hv
  · exact hn (List.mem_append.mpr (Or.inl hv))
  · exact hn (List.mem_append.mpr (Or.inr ((mem_setdiff1d _ _ _).mpr ⟨hd, hv⟩)))

/-- A data frame handed to `expand_sparse_unique_vals_and_matrix`: the `user`
and `item` columns plus the sparse feature columns accessed by name. -/
structure ExpandFrame where
  user : List Int
  item : List Int
  cols : List (String × List Int)
deriving DecidableEq

/-- The `DataInfo` state: unique id arrays, optional unique feature matrices
(lists of rows; the sparse ones hold embedding indices, the dense ones hold
rationals standing for the float features), sparse-column metadata and the
consumption indices. -/
structure DataState where
  user_unique_vals : List Int := []
  item_unique_vals : List Int := []
  user_sparse_unique : Option (List (List Int)) := none
  user_dense_unique : Option (List (List Rat)) := none
  item_sparse_unique : Option (List (List Int)) := none
  item_dense_unique : Option (List (List Rat)) := none
  sparse_unique_vals : List (String × List Int) := []
  multi_sparse_unique_vals : List (String × List Int) := []
  sparse_offset : List Int := []
  sparse_oov : List Int := []
  user_sparse_col_name : List String := []
  user_sparse_col_index : List Nat := []
  item_sparse_col_name : List String := []
  item_sparse_col_index : List Nat := []
  user_dense_col_name : List String := []
  item_dense_col_name : List String := []
  user_indices : List Nat := []
  item_indices : List Nat := []
  user_consumed : List (Nat × List Nat) := []
  item_consumed : List (Nat × List Nat) := []
deriving DecidableEq

/-- `n_users`: length of `user_unique_vals` (the property is recomputed from
the array after `reset_property`). -/
def DataState.n_users (st : DataState) : Nat := st.user_unique_vals.length

/-- `n_items`: length of `item_unique_vals`. -/
def DataState.n_items (st : DataState) : Nat := st.item_unique_vals.length

/-- `dict(zip(vals, range(len(vals))))`: external id to inner id mapping,
as an association list. -/
def mapToInnerIds (vals : List Int) : List (Int × Nat) :=
  vals.zip (List.range vals.length)

/-- `user2id` derived mapping. -/
def DataState.user2id (st : DataState) : List (Int × Nat) :=
  mapToInnerIds st.user_unique_vals

/-- `item2id` derived mapping. -/
def DataState.item2id (st : DataState) : List (Int × Nat) :=
  mapToInnerIds st.item_unique_vals

/-- A fresh all-zero block of `diff_num` rows, `np.zeros([diff_num, m.shape[1]])`. -/
def zeroBlock (z : α) (diff_num width : Nat) : List (List α) :=
  List.replicate diff_num (List.replicate width z)

/-- `np.vstack([m[:-1], np.zeros([diff_num, m.shape[1]])])`: drop the last row
of `m` and append `diff_num` fresh zero rows. -/
def extendRows (z : α) (m : List (List α)) (diff_num : Nat) : List (List α) :=
  m.dropLast ++ zeroBlock z diff_num (m.headD []).length

/-- `DataInfo.extend_unique_matrix`: grows the unique feature matrices of the
given entity kind by `diff_num` rows, excluding the last (oov) row first. -/
def extend_unique_matrix (st : DataState) (mode : String) (diff_num : Nat) : DataState :=
  if mode = "user" then
    { st with
      user_sparse_unique := st.user_sparse_unique.map (fun m => extendRows 0 m diff_num)
      user_dense_unique := st.user_dense_unique.map (fun m => extendRows 0 m diff_num) }
  else if mode = "item" then
    { st with
      item_sparse_unique := st.item_sparse_unique.map (fun m => extendRows 0 m diff_num)
      item_dense_unique := st.item_dense_unique.map (fun m => extendRows 0 m diff_num) }
  else st

/-- Fancy indexing `xs[idx]` used for `sparse_oov[col_index]`. -/
def selectIdx (xs : List Int) (idx : List Nat) : List Int :=
  idx.map (fun i => xs.getD i 0)

/-- Pointwise sum of two rows. -/
def addVec (a b : List Rat) : List Rat := List.zipWith (fun x y => x + y) a b

/-- Column-wise sum of a matrix. -/
def colSum : List (List Rat) → List Rat
  | [] => []
  | [r] => r
  | r :: rs => addVec r (colSum rs)

/-- `np.mean(m, axis=0)`: the column-wise mean row of `m`. -/
def meanRow (m : List (List Rat)) : List Rat :=
  (colSum m).map (fun s => s / (m.length : Rat))

/-- `DataInfo.add_oov`, user sparse branch: append the sparse oov row when the
matrix has exactly `n_users` rows. -/
def addOovUserSparse (st : DataState) : DataState :=
  match st.user_sparse_unique with
  | some m =>
    if m.length = st.n_users then
      { st with
        user_sparse_unique :=
          some (m ++ [selectIdx st.sparse_oov st.user_sparse_col_index]) }
    else st
  | none => st

/-- `DataInfo.add_oov`, item sparse branch. -/
def addOovItemSparse (st : DataState) : DataState :=
  match st.item_sparse_unique with
  | some m =>
    if m.length = st.n_items then
      { st with
        item_sparse_unique :=
          some (m ++ [selectIdx st.sparse_oov st.item_sparse_col_index]) }
    else st
  | none => st

/-- `DataInfo.add_oov`, user dense branch: append the column-mean oov row. -/
def addOovUserDense (st : DataState) : DataState :=
  match st.user_dense_unique with
  | some m =>
    if m.length = st.n_users then
      { st with user_dense_unique := some (m ++ [meanRow m]) }
    else st
  | none => st

/-- `DataInfo.add_oov`, item dense branch. -/
def addOovItemDense (st : DataState) : DataState :=
  match st.item_dense_unique with
  | some m =>
    if m.length = st.n_items then
      { st with item_dense_unique := some (m ++ [meanRow m]) }
    else st
  | none => st

/-- `DataInfo.add_oov`: the four branches in source order (user sparse, item
sparse, user dense, item dense). -/
def add_oov (st : DataState) : DataState :=
  addOovItemDense (addOovUserDense (addOovItemSparse (addOovUserSparse st)))

/-- One loop iteration of the inner `update_sparse_unique` closure of
`expand_sparse_unique_vals_and_matrix`: append the novel categories of one
sparse column found in the frame. -/
def updateSparseCol (data : ExpandFrame) (p : String × List Int) :
    String × List Int :=
  match data.cols.lookup p.1 with
  | none => p
  | some colvals =>
    let sparse_diff := setdiff1d colvals p.2
    if sparse_diff.length > 0 then (p.1, p.2 ++ sparse_diff) else p

/-- The inner `update_sparse_unique` closure of
`expand_sparse_unique_vals_and_matrix`: for every known sparse column, append
the novel categories found in the frame (the index dictionaries are derived
from the value arrays by `mapToInnerIds`, as `map_unique_vals` does). -/
def update_sparse_unique (dicts : List (String × List Int)) (data : ExpandFrame) :
    List (String × List Int) :=
  dicts.map (updateSparseCol data)

/-- The user half of `expand_sparse_unique_vals_and_matrix`: append the novel
user ids and, when there are any, extend the user unique matrices. -/
def expandUserStep (st : DataState) (data : ExpandFrame) : DataState :=
  let user_diff := setdiff1d data.user st.user_unique_vals
  if user_diff.length > 0 then
    extend_unique_matrix
      { st with user_unique_vals := st.user_unique_vals ++ user_diff }
      "user" user_diff.length
  else st

/-- The item half of `expand_sparse_unique_vals_and_matrix`. -/
def expandItemStep (st : DataState) (data : ExpandFrame) : DataState :=
  let item_diff := setdiff1d data.item st.item_unique_vals
  if item_diff.length > 0 then
    extend_unique_matrix
      { st with item_unique_vals := st.item_unique_vals ++ item_diff }
      "item" item_diff.length
  else st

/-- The final part of `expand_sparse_unique_vals_and_matrix`: expand the
sparse and multi-sparse category dictionaries from the frame. -/
def updateDictsStep (st : DataState) (data : ExpandFrame) : DataState :=
  { st with
    sparse_unique_vals := update_sparse_unique st.sparse_unique_vals data
    multi_sparse_unique_vals := update_sparse_unique st.multi_sparse_unique_vals data }

/-- `DataInfo.expand_sparse_unique_vals_and_matrix`: append the novel user and
item ids (as computed by `np.setdiff1d`), extend the unique matrices by the
same count, then expand every sparse and multi-sparse category dictionary. -/
def expand_sparse_unique_vals_and_matrix (st : DataState) (data : ExpandFrame) :
    DataState :=
  updateDictsStep (expandItemStep (expandUserStep st data) data) data

@[simp]
theorem extendUM_user_vals (st : DataState) (mode : String) (d : Nat) :
    (extend_unique_matrix st mode d).user_unique_vals = st.user_unique_vals := by
  unfold extend_unique_matrix; split_ifs <;> rfl

@[simp]
theorem extendUM_item_vals (st : DataState) (mode : String) (d : Nat) :
    (extend_unique_matrix st mode d).item_unique_vals = st.item_unique_vals := by
  unfold extend_unique_matrix; split_ifs <;> rfl

@[simp]
theorem extendUM_sparse_dict (st : DataState) (mode : String) (d : Nat) :
    (extend_unique_matrix st mode d).sparse_unique_vals = st.sparse_unique_vals := by
  unfold extend_unique_matrix; split_ifs <;> rfl

@[simp]
theorem extendUM_multi_dict (st : DataState) (mode : String) (d : Nat) :
    (extend_unique_matrix st mode d).multi_sparse_unique_vals
      = st.multi_sparse_unique_vals := by
  unfold extend_unique_matrix; split_ifs <;> rfl

theorem expandUserStep_user_vals (st : DataState) (data : ExpandFrame) :
    (expandUserStep st data).user_unique_vals
      = st.user_unique_vals ++ setdiff1d data.user st.user_unique_vals := by
  simp only [expandUserStep]
  split_ifs with h
  · rw [extendUM_user_vals]
  · cases hs : setdiff1d data.user st.user_unique_vals with
    | nil => rw [List.append_nil]
    | cons a t => exact absurd (hs ▸ Nat.succ_pos t.length) h

@[simp]
theorem expandUserStep_item_vals (st : DataState) (data : ExpandFrame) :
    (expandUserStep st data).item_unique_vals = st.item_unique_vals := by
  simp only [expandUserStep]
  split_ifs with h
  · rw [extendUM_item_vals]
  · rfl

@[simp]
theorem expandUserStep_sparse_dict (st : DataState) (data : ExpandFrame) :
    (expandUserStep st data).sparse_unique_vals = st.sparse_unique_vals := by
  simp only [expandUserStep]
  split_ifs with h
  · rw [extendUM_sparse_dict]
  · rfl

@[simp]
theorem expandUserStep_multi_dict (st : DataState) (data : ExpandFrame) :
    (expandUserStep st data).multi_sparse_unique_vals
      = st.multi_sparse_unique_vals := by
  simp only [expandUserStep]
  split_ifs with h
  · rw [extendUM_multi_dict]
  · rfl

theorem expandItemStep_item_vals (st : DataState) (data : ExpandFrame) :
    (expandItemStep st data).item_unique_vals
      = st.item_unique_vals ++ setdiff1d data.item st.item_unique_vals := by
  simp only [expandItemStep]
  split_ifs with h
  · rw [extendUM_item_vals]
  · cases hs : setdiff1d data.item st.item_unique_vals with
    | nil => rw [List.append_nil]
    | cons a t => exact absurd (hs ▸ Nat.succ_pos t.length) h

@[simp]
theorem expandItemStep_user_vals (st : DataState) (data : ExpandFrame) :
    (expandItemStep st data).user_unique_vals = st.user_unique_vals := by
  simp only [expandItemStep]
  split_ifs with h
  · rw [extendUM_user_vals]
  · rfl

@[simp]
theorem expandItemStep_sparse_dict (st : DataState) (data : ExpandFrame) :
    (expandItemStep st data).sparse_unique_vals = st.sparse_unique_vals := by
  simp only [expandItemStep]
  split_ifs with h
  · rw [extendUM_sparse_dict]
  · rfl

@[simp]
theorem expandItemStep_multi_dict (st : DataState) (data : ExpandFrame) :
    (expandItemStep st data).multi_sparse_unique_vals
      = st.multi_sparse_unique_vals := by
  simp only [expandItemStep]
  split_ifs with h
  · rw [extendUM_multi_dict]
  · rfl

theorem expand_user_vals (st : DataState) (data : ExpandFrame) :
    (expand_sparse_unique_vals_and_matrix st data).user_unique_vals
      = st.user_unique_vals ++ setdiff1d data.user st.user_unique_vals := by
  show (expandItemStep (expandUserStep st data) data).user_unique_vals = _
  rw [expandItemStep_user_vals, expandUserStep_user_vals]

theorem expand_item_vals (st : DataState) (data : ExpandFrame) :
    (expand_sparse_unique_vals_and_matrix st data).item_unique_vals
      = st.item_unique_vals ++ setdiff1d data.item st.item_unique_vals := by
  show (expandItemStep (expandUserStep st data) data).item_unique_vals = _
  rw [expandItemStep_item_vals, expandUserStep_item_vals]

theorem expand_sparse_dict (st : DataState) (data : ExpandFrame) :
    (expand_sparse_unique_vals_and_matrix st data).sparse_unique_vals
      = update_sparse_unique st.sparse_unique_vals data := by
  show update_sparse_unique
      (expandItemStep (expandUserStep st data) data).sparse_unique_vals data = _
  rw [expandItemStep_sparse_dict, expandUserStep_sparse_dict]

theorem expand_multi_dict (st : DataState) (data : ExpandFrame) :
    (expand_sparse_unique_vals_and_matrix st data).multi_sparse_unique_vals
      = update_sparse_unique st.multi_sparse_unique_vals data := by
  show update_sparse_unique
      (expandItemStep (expandUserStep st data) data).multi_sparse_unique_vals data = _
  rw [expandItemStep_multi_dict, expandUserStep_multi_dict]

theorem expandUserStep_of_nil (st : DataState) (data : ExpandFrame)
    (h : setdiff1d data.user st.user_unique_vals = []) :
    expandUserStep st data = st := by
  simp [expandUserStep, h]

theorem expandItemStep_of_nil (st : DataState) (data : ExpandFrame)
    (h : setdiff1d data.item st.item_unique_vals = []) :
    expandItemStep st data = st := by
  simp [expandItemStep, h]

theorem updateSparseCol_idem (data : ExpandFrame) (p : String × List Int) :
    updateSparseCol data (updateSparseCol data p) = updateSparseCol data p := by
  rcases hl : data.cols.lookup p.1 with _ | cv
  · simp [updateSparseCol, hl]
  · by_cases hd : (setdiff1d cv p.2).length > 0
    · have h1 : updateSparseCol data p = (p.1, p.2 ++ setdiff1d cv p.2) := by
        simp [updateSparseCol, hl, hd]
      rw [h1]
      have h2 : setdiff1d cv (p.2 ++ setdiff1d cv p.2) = [] :=
        setdiff1d_append_self cv p.2
      simp [updateSparseCol, hl, h2]
    · have h1 : updateSparseCol data p = p := by
        simp [updateSparseCol, hl, hd]
      rw [h1, h1]

theorem update_sparse_unique_idem (dicts : List (String × List Int))
    (data : ExpandFrame) :
    update_sparse_unique (update_sparse_unique dicts data) data
      = update_sparse_unique dicts data := by
  unfold update_sparse_unique
  rw [List.map_map]
  exact List.map_congr_left (fun p _ => updateSparseCol_idem data p)

theorem sorted_setdiff1d (data vals : List Int) :
    List.Sorted (fun a b : Int => a ≤ b) (setdiff1d data vals) :=
  List.sorted_insertionSort _ _

/-- C3 (amended): `expand_sparse_unique_vals_and_matrix` appends to
`user_unique_vals` and `item_unique_vals` exactly the external ids not already
present — in ascending sorted order (`np.setdiff1d` sorts them; not in the
order encountered in the incoming data) — and never changes the inner id
previously assigned to any existing external id. -/
theorem expand_appends_sorted_novel_ids (st : DataState) (data : ExpandFrame) :
    ((expand_sparse_unique_vals_and_matrix st data).user_unique_vals.take
        st.user_unique_vals.length = st.user_unique_vals
      ∧ (∀ x ∈ st.user_unique_vals,
          (expand_sparse_unique_vals_and_matrix st data).user_unique_vals.indexOf x
            = st.user_unique_vals.indexOf x)
      ∧ (∀ x : Int,
          x ∈ (expand_sparse_unique_vals_and_matrix st data).user_unique_vals.drop
              st.user_unique_vals.length
            ↔ x ∈ data.user ∧ x ∉ st.user_unique_vals)
      ∧ List.Sorted (fun a b : Int => a ≤ b)
          ((expand_sparse_unique_vals_and_matrix st data).user_unique_vals.drop
            st.user_unique_vals.length))
    ∧ ((expand_sparse_unique_vals_and_matrix st data).item_unique_vals.take
        st.item_unique_vals.length = st.item_unique_vals
      ∧ (∀ x ∈ st.item_unique_vals,
          (expand_sparse_unique_vals_and_matrix st data).item_unique_vals.indexOf x
            = st.item_unique_vals.indexOf x)
      ∧ (∀ x : Int,
          x ∈ (expand_sparse_unique_vals_and_matrix st data).item_unique_vals.drop
              st.item_unique_vals.length
            ↔ x ∈ data.item ∧ x ∉ st.item_unique_vals)
      ∧ List.Sorted (fun a b : Int => a ≤ b)
          ((expand_sparse_unique_vals_and_matrix st data).item_unique_vals.drop
            st.item_unique_vals.length)) := by
  have hu := expand_user_vals st data
  have hi := expand_item_vals st data
  constructor
  · refine ⟨?_, ?_, ?_, ?_⟩
    · rw [hu, List.take_left]
    · intro x hx
      rw [hu, List.indexOf_append_of_mem hx]
    · intro x
      rw [hu, List.drop_left]
      exact mem_setdiff1d x data.user st.user_unique_vals
    · rw [hu, List.drop_left]
      exact sorted_setdiff1d _ _
  · refine ⟨?_, ?_, ?_, ?_⟩
    · rw [hi, List.take_left]
    · intro x hx
      rw [hi, List.indexOf_append_of_mem hx]
    · intro x
      rw [hi, List.drop_left]
      exact mem_setdiff1d x data.item st.item_unique_vals
    · rw [hi, List.drop_left]
      exact sorted_setdiff1d _ _

/-- Witness for C3 (amended) at a concrete state: known users `[7]`, incoming
user column `[5, 3, 7]`. The inner id of `7` is unchanged and `3` is among the
appended novel ids. -/
theorem expand_appends_sorted_novel_ids_witness :
    (expand_sparse_unique_vals_and_matrix
        { user_unique_vals := [7], item_unique_vals := [2] }
        ⟨[5, 3, 7], [2, 4], []⟩).user_unique_vals.indexOf 7
      = ([7] : List Int).indexOf 7
    ∧ (3 : Int) ∈ (expand_sparse_unique_vals_and_matrix
        { user_unique_vals := [7], item_unique_vals := [2] }
        ⟨[5, 3, 7], [2, 4], []⟩).user_unique_vals.drop (([7] : List Int).length) := by
  have h := expand_appends_sorted_novel_ids
    { user_unique_vals := [7], item_unique_vals := [2] } ⟨[5, 3, 7], [2, 4], []⟩
  exact ⟨h.1.2.1 7 (by decide), (h.1.2.2.1 3).mpr (by decide)⟩

/-- C3 counterexample: with no known users and incoming user column `[5, 3]`,
the code appends `[3, 5]` (`np.setdiff1d` returns a sorted array), not the
first-encounter order `[5, 3]` the claim requires. -/
theorem expand_encounter_order_counterexample :
    (expand_sparse_unique_vals_and_matrix {} ⟨[5, 3], [], []⟩).user_unique_vals
      = [3, 5]
    ∧ novelIdsInEncounterOrder [5, 3] [] = [5, 3]
    ∧ ([3, 5] : List Int) ≠ [5, 3] :=
  ⟨by decide, by decide, by decide⟩

/-- C8: `expand_sparse_unique_vals_and_matrix` is idempotent — a second call
with the same data frame leaves the whole state (unique-value arrays,
sparse-category dictionaries and unique feature matrices) unchanged. -/
theorem expand_idempotent (st : DataState) (data : ExpandFrame) :
    expand_sparse_unique_vals_and_matrix
        (expand_sparse_unique_vals_and_matrix st data) data
      = expand_sparse_unique_vals_and_matrix st data := by
  have hu : setdiff1d data.user
      (expand_sparse_unique_vals_and_matrix st data).user_unique_vals = [] := by
    rw [expand_user_vals]
    exact setdiff1d_append_self _ _
  have hi : setdiff1d data.item
      (expand_sparse_unique_vals_and_matrix st data).item_unique_vals = [] := by
    rw [expand_item_vals]
    exact setdiff1d_append_self _ _
  have h2 : update_sparse_unique
      (expand_sparse_unique_vals_and_matrix st data).sparse_unique_vals data
      = (expand_sparse_unique_vals_and_matrix st data).sparse_unique_vals := by
    rw [expand_sparse_dict]
    exact update_sparse_unique_idem _ _
  have h3 : update_sparse_unique
      (expand_sparse_unique_vals_and_matrix st data).multi_sparse_unique_vals data
      = (expand_sparse_unique_vals_and_matrix st data).multi_sparse_unique_vals := by
    rw [expand_multi_dict]
    exact update_sparse_unique_idem _ _
  show updateDictsStep (expandItemStep (expandUserStep
      (expand_sparse_unique_vals_and_matrix st data) data) data) data
    = expand_sparse_unique_vals_and_matrix st data
  rw [expandUserStep_of_nil _ _ hu, expandItemStep_of_nil _ _ hi]
  unfold updateDictsStep
  rw [h2, h3]

theorem addOovUserSparse_others (st : DataState) :
    (addOovUserSparse st).user_unique_vals = st.user_unique_vals
    ∧ (addOovUserSparse st).item_unique_vals = st.item_unique_vals
    ∧ (addOovUserSparse st).user_dense_unique = st.user_dense_unique
    ∧ (addOovUserSparse st).item_sparse_unique = st.item_sparse_unique
    ∧ (addOovUserSparse st).item_dense_unique = st.item_dense_unique
    ∧ (addOovUserSparse st).sparse_oov = st.sparse_oov
    ∧ (addOovUserSparse st).user_sparse_col_index = st.user_sparse_col_index
    ∧ (addOovUserSparse st).item_sparse_col_index = st.item_sparse_col_index := by
  unfold addOovUserSparse
  split
  · split_ifs <;> exact ⟨rfl, rfl, rfl, rfl, rfl, rfl, rfl, rfl⟩
  · exact ⟨rfl, rfl, rfl, rfl, rfl, rfl, rfl, rfl⟩

theorem addOovItemSparse_others (st : DataState) :
    (addOovItemSparse st).user_unique_vals = st.user_unique_vals
    ∧ (addOovItemSparse st).item_unique_vals = st.item_unique_vals
    ∧ (addOovItemSparse st).user_sparse_unique = st.user_sparse_unique
    ∧ (addOovItemSparse st).user_dense_unique = st.user_dense_unique
    ∧ (addOovItemSparse st).item_dense_unique = st.item_dense_unique
    ∧ (addOovItemSparse st).sparse_oov = st.sparse_oov
    ∧ (addOovItemSparse st).user_sparse_col_index = st.user_sparse_col_index
    ∧ (addOovItemSparse st).item_sparse_col_index = st.item_sparse_col_index := by
  unfold addOovItemSparse
  split
  · split_ifs <;> exact ⟨rfl, rfl, rfl, rfl, rfl, rfl, rfl, rfl⟩
  · exact ⟨rfl, rfl, rfl, rfl, rfl, rfl, rfl, rfl⟩

theorem addOovUserDense_others (st : DataState) :
    (addOovUserDense st).user_unique_vals = st.user_unique_vals
    ∧ (addOovUserDense st).item_unique_vals = st.item_unique_vals
    ∧ (addOovUserDense st).user_sparse_unique = st.user_sparse_unique
    ∧ (addOovUserDense st).item_sparse_unique = st.item_sparse_unique
    ∧ (addOovUserDense st).item_dense_unique = st.item_dense_unique
    ∧ (addOovUserDense st).sparse_oov = st.sparse_oov
    ∧ (addOovUserDense st).user_sparse_col_index = st.user_sparse_col_index
    ∧ (addOovUserDense st).item_sparse_col_index = st.item_sparse_col_index := by
  unfold addOovUserDense
  split
  · split_ifs <;> exact ⟨rfl, rfl, rfl, rfl, rfl, rfl, rfl, rfl⟩
  · exact ⟨rfl, rfl, rfl, rfl, rfl, rfl, rfl, rfl⟩

theorem addOovItemDense_others (st : DataState) :
    (addOovItemDense st).user_unique_vals = st.user_unique_vals
    ∧ (addOovItemDense st).item_unique_vals = st.item_unique_vals
    ∧ (addOovItemDense st).user_sparse_unique = st.user_sparse_unique
    ∧ (addOovItemDense st).user_dense_unique = st.user_dense_unique
    ∧ (addOovItemDense st).item_sparse_unique = st.item_sparse_unique
    ∧ (addOovItemDense st).sparse_oov = st.sparse_oov
    ∧ (addOovItemDense st).user_sparse_col_index = st.user_sparse_col_index
    ∧ (addOovItemDense st).item_sparse_col_index = st.item_sparse_col_index := by
  unfold addOovItemDense
  split
  · split_ifs <;> exact ⟨rfl, rfl, rfl, rfl, rfl, rfl, rfl, rfl⟩
  · exact ⟨rfl, rfl, rfl, rfl, rfl, rfl, rfl, rfl⟩

theorem addOovUserSparse_eq (st : DataState) (m : List (List Int))
    (hm : st.user_sparse_unique = some m) (hl : m.length = st.n_users) :
    (addOovUserSparse st).user_sparse_unique
      = some (m ++ [selectIdx st.sparse_oov st.user_sparse_col_index]) := by
  simp [addOovUserSparse, hm, hl]

theorem addOovItemSparse_eq (st : DataState) (m : List (List Int))
    (hm : st.item_sparse_unique = some m) (hl : m.length = st.n_items) :
    (addOovItemSparse st).item_sparse_unique
      = some (m ++ [selectIdx st.sparse_oov st.item_sparse_col_index]) := by
  simp [addOovItemSparse, hm, hl]

theorem addOovUserDense_eq (st : DataState) (m : List (List Rat))
    (hm : st.user_dense_unique = some m) (hl : m.length = st.n_users) :
    (addOovUserDense st).user_dense_unique = some (m ++ [meanRow m]) := by
  simp [addOovUserDense, hm, hl]

theorem addOovItemDense_eq (st : DataState) (m : List (List Rat))
    (hm : st.item_dense_unique = some m) (hl : m.length = st.n_items) :
    (addOovItemDense st).item_dense_unique = some (m ++ [meanRow m]) := by
  simp [addOovItemDense, hm, hl]

theorem extendUM_user_fields (st : DataState) (d : Nat) :
    (extend_unique_matrix st "user" d).user_sparse_unique
        = st.user_sparse_unique.map (fun m => extendRows 0 m d)
    ∧ (extend_unique_matrix st "user" d).user_dense_unique
        = st.user_dense_unique.map (fun m => extendRows 0 m d)
    ∧ (extend_unique_matrix st "user" d).sparse_oov = st.sparse_oov
    ∧ (extend_unique_matrix st "user" d).user_sparse_col_index
        = st.user_sparse_col_index := by
  unfold extend_unique_matrix
  rw [if_pos rfl]
  exact ⟨rfl, rfl, rfl, rfl⟩

theorem extendUM_item_fields (st : DataState) (d : Nat) :
    (extend_unique_matrix st "item" d).item_sparse_unique
        = st.item_sparse_unique.map (fun m => extendRows 0 m d)
    ∧ (extend_unique_matrix st "item" d).item_dense_unique
        = st.item_dense_unique.map (fun m => extendRows 0 m d)
    ∧ (extend_unique_matrix st "item" d).user_sparse_unique = st.user_sparse_unique
    ∧ (extend_unique_matrix st "item" d).user_dense_unique = st.user_dense_unique
    ∧ (extend_unique_matrix st "item" d).sparse_oov = st.sparse_oov
    ∧ (extend_unique_matrix st "item" d).item_sparse_col_index
        = st.item_sparse_col_index := by
  unfold extend_unique_matrix
  rw [if_neg (by decide), if_pos rfl]
  exact ⟨rfl, rfl, rfl, rfl, rfl, rfl⟩

theorem length_extendRows (z : α) (m : List (List α)) (d : Nat) :
    (extendRows z m d).length = m.length - 1 + d := by
  simp [extendRows, zeroBlock]

/-- C2 counterexample: a state with 2 old users grown to 3
(`user_unique_vals = [10, 20, 30]`) and a 3-row user sparse matrix
`[[1], [2], [7]]` (2 id rows plus the oov row `[7]`). Right after
`extend_unique_matrix "user" 1` the matrix is `[[1], [2], [0]]`: the trailing
oov row has been dropped (the new row replaces it at the end rather than being
inserted before it), and the row count is 3, not `n_entities + 1 = 4`. -/
theorem extend_unique_matrix_counterexample :
    (extend_unique_matrix
        { user_unique_vals := [10, 20, 30],
          user_sparse_unique := some [[1], [2], [7]] } "user" 1).user_sparse_unique
      = some [[1], [2], [0]]
    ∧ ¬ (([[1], [2], [0]] : List (List Int)).length
          = ({ user_unique_vals := [10, 20, 30],
               user_sparse_unique := some [[1], [2], [7]] : DataState }).n_users + 1)
    ∧ ([7] : List Int) ∉ ([[1], [2], [0]] : List (List Int)) :=
  ⟨by decide, by decide, by decide⟩

/-- C2 (amended): `extend_unique_matrix` alone drops the trailing oov row and
leaves `n_entities` rows; the `n_entities + 1` row-count invariant is
re-established by the subsequent `add_oov`, after which the fresh rows sit
between the preserved old id rows (`m.dropLast`) and a new trailing oov row.
Stated for all four unique feature matrices: growing the user count by `d`
from `n` and the item count by `e` from `p`. -/
theorem extend_then_add_oov_invariant
    (st : DataState) (ms : List (List Int)) (md : List (List Rat))
    (mis : List (List Int)) (mid' : List (List Rat)) (n d p e : Nat)
    (hms : st.user_sparse_unique = some ms) (hmd : st.user_dense_unique = some md)
    (hmis : st.item_sparse_unique = some mis)
    (hmid : st.item_dense_unique = some mid')
    (hlms : ms.length = n + 1) (hlmd : md.length = n + 1)
    (hlmis : mis.length = p + 1) (hlmid : mid'.length = p + 1)
    (hnu : st.user_unique_vals.length = n + d)
    (hni : st.item_unique_vals.length = p + e) :
    ((add_oov (extend_unique_matrix st "user" d)).user_sparse_unique
        = some (extendRows 0 ms d
            ++ [selectIdx st.sparse_oov st.user_sparse_col_index])
      ∧ (extendRows 0 ms d
          ++ [selectIdx st.sparse_oov st.user_sparse_col_index]).length
        = (n + d) + 1)
    ∧ ((add_oov (extend_unique_matrix st "user" d)).user_dense_unique
        = some (extendRows 0 md d ++ [meanRow (extendRows 0 md d)])
      ∧ (extendRows 0 md d ++ [meanRow (extendRows 0 md d)]).length
        = (n + d) + 1)
    ∧ ((add_oov (extend_unique_matrix st "item" e)).item_sparse_unique
        = some (extendRows 0 mis e
            ++ [selectIdx st.sparse_oov st.item_sparse_col_index])
      ∧ (extendRows 0 mis e
          ++ [selectIdx st.sparse_oov st.item_sparse_col_index]).length
        = (p + e) + 1)
    ∧ ((add_oov (extend_unique_matrix st "item" e)).item_dense_unique
        = some (extendRows 0 mid' e ++ [meanRow (extendRows 0 mid' e)])
      ∧ (extendRows 0 mid' e ++ [meanRow (extendRows 0 mid' e)]).length
        = (p + e) + 1) := by
  obtain ⟨eu1, eu2, eu3, eu4⟩ := extendUM_user_fields st d
  obtain ⟨ei1, ei2, ei3, ei4, ei5, ei6⟩ := extendUM_item_fields st e
  have huv : (extend_unique_matrix st "user" d).user_unique_vals
      = st.user_unique_vals := extendUM_user_vals st "user" d
  have hiv : (extend_unique_matrix st "item" e).item_unique_vals
      = st.item_unique_vals := extendUM_item_vals st "item" e
  refine ⟨⟨?_, ?_⟩, ⟨?_, ?_⟩, ⟨?_, ?_⟩, ⟨?_, ?_⟩⟩
  · -- user sparse after extend "user" then add_oov
    have e1 : (extend_unique_matrix st "user" d).user_sparse_unique
        = some (extendRows 0 ms d) := by
      rw [eu1, hms, Option.map_some']
    have e2 : (extendRows 0 ms d).length
        = (extend_unique_matrix st "user" d).n_users := by
      rw [length_extendRows, hlms]
      show n + 1 - 1 + d
        = (extend_unique_matrix st "user" d).user_unique_vals.length
      rw [huv, hnu]
      omega
    have hA := addOovUserSparse_eq _ _ e1 e2
    have hfin : (add_oov (extend_unique_matrix st "user" d)).user_sparse_unique
        = (addOovUserSparse (extend_unique_matrix st "user" d)).user_sparse_unique := by
      unfold add_oov
      rw [(addOovItemDense_others _).2.2.1, (addOovUserDense_others _).2.2.1,
        (addOovItemSparse_others _).2.2.1]
    rw [hfin, hA, eu3, eu4]
  · simp [length_extendRows, hlms]
  · -- user dense
    have y1 : (addOovItemSparse (addOovUserSparse
        (extend_unique_matrix st "user" d))).user_dense_unique
        = some (extendRows 0 md d) := by
      rw [(addOovItemSparse_others _).2.2.2.1, (addOovUserSparse_others _).2.2.1,
        eu2, hmd, Option.map_some']
    have y2 : (extendRows 0 md d).length
        = (addOovItemSparse (addOovUserSparse
            (extend_unique_matrix st "user" d))).n_users := by
      have hYv : (addOovItemSparse (addOovUserSparse
          (extend_unique_matrix st "user" d))).user_unique_vals
          = st.user_unique_vals := by
        rw [(addOovItemSparse_others _).1, (addOovUserSparse_others _).1, huv]
      rw [length_extendRows, hlmd]
      show n + 1 - 1 + d
        = (addOovItemSparse (addOovUserSparse
            (extend_unique_matrix st "user" d))).user_unique_vals.length
      rw [hYv, hnu]
      omega
    have hA := addOovUserDense_eq _ _ y1 y2
    have hfin : (add_oov (extend_unique_matrix st "user" d)).user_dense_unique
        = (addOovUserDense (addOovItemSparse (addOovUserSparse
            (extend_unique_matrix st "user" d)))).user_dense_unique := by
      unfold add_oov
      rw [(addOovItemDense_others _).2.2.2.1]
    rw [hfin, hA]
  · simp [length_extendRows, hlmd]
  · -- item sparse after extend "item" then add_oov
    have x1 : (addOovUserSparse
        (extend_unique_matrix st "item" e)).item_sparse_unique
        = some (extendRows 0 mis e) := by
      rw [(addOovUserSparse_others _).2.2.2.1, ei1, hmis, Option.map_some']
    have x2 : (extendRows 0 mis e).length
        = (addOovUserSparse (extend_unique_matrix st "item" e)).n_items := by
      have hXv : (addOovUserSparse
          (extend_unique_matrix st "item" e)).item_unique_vals
          = st.item_unique_vals := by
        rw [(addOovUserSparse_others _).2.1, hiv]
      rw [length_extendRows, hlmis]
      show p + 1 - 1 + e
        = (addOovUserSparse (extend_unique_matrix st "item" e)).item_unique_vals.length
      rw [hXv, hni]
      omega
    have hA := addOovItemSparse_eq _ _ x1 x2
    have hso : (addOovUserSparse (extend_unique_matrix st "item" e)).sparse_oov
        = st.sparse_oov := by
      rw [(addOovUserSparse_others _).2.2.2.2.2.1, ei5]
    have hsi : (addOovUserSparse
        (extend_unique_matrix st "item" e)).item_sparse_col_index
        = st.item_sparse_col_index := by
      rw [(addOovUserSparse_others _).2.2.2.2.2.2.2, ei6]
    have hfin : (add_oov (extend_unique_matrix st "item" e)).item_sparse_unique
        = (addOovItemSparse (addOovUserSparse
            (extend_unique_matrix st "item" e))).item_sparse_unique := by
      unfold add_oov
      rw [(addOovItemDense_others _).2.2.2.2.1, (addOovUserDense_others _).2.2.2.1]
    rw [hfin, hA, hso, hsi]
  · simp [length_extendRows, hlmis]
  · -- item dense
    have z1 : (addOovUserDense (addOovItemSparse (addOovUserSparse
        (extend_unique_matrix st "item" e)))).item_dense_unique
        = some (extendRows 0 mid' e) := by
      rw [(addOovUserDense_others _).2.2.2.2.1, (addOovItemSparse_others _).2.2.2.2.1,
        (addOovUserSparse_others _).2.2.2.2.1, ei2, hmid, Option.map_some']
    have z2 : (extendRows 0 mid' e).length
        = (addOovUserDense (addOovItemSparse (addOovUserSparse
            (extend_unique_matrix st "item" e)))).n_items := by
      have hZv : (addOovUserDense (addOovItemSparse (addOovUserSparse
          (extend_unique_matrix st "item" e)))).item_unique_vals
          = st.item_unique_vals := by
        rw [(addOovUserDense_others _).2.1, (addOovItemSparse_others _).2.1,
          (addOovUserSparse_others _).2.1, hiv]
      rw [length_extendRows, hlmid]
      show p + 1 - 1 + e
        = (addOovUserDense (addOovItemSparse (addOovUserSparse
            (extend_unique_matrix st "item" e)))).item_unique_vals.length
      rw [hZv, hni]
      omega
    have hA := addOovItemDense_eq _ _ z1 z2
    show (addOovItemDense (addOovUserDense (addOovItemSparse (addOovUserSparse
        (extend_unique_matrix st "item" e))))).item_dense_unique = _
    rw [hA]
  · simp [length_extendRows, hlmid]

/-- Witness for C2 (amended) at a concrete state: 3 users grown from 2
(`d = 1`), 2 items grown from 1 (`e = 1`), all four matrices present. -/
theorem extend_then_add_oov_invariant_witness :
    (add_oov (extend_unique_matrix
        { user_unique_vals := [1, 2, 3], item_unique_vals := [4, 5],
          user_sparse_unique := some [[10], [11], [12]],
          user_dense_unique := some [[(1 : Rat)], [2], [3]],
          item_sparse_unique := some [[7], [8]],
          item_dense_unique := some [[(4 : Rat)], [6]],
          sparse_oov := [99], user_sparse_col_index := [0],
          item_sparse_col_index := [0] } "user" 1)).user_sparse_unique
      = some [[10], [11], [0], [99]] := by
  have h := extend_then_add_oov_invariant
    { user_unique_vals := [1, 2, 3], item_unique_vals := [4, 5],
      user_sparse_unique := some [[10], [11], [12]],
      user_dense_unique := some [[(1 : Rat)], [2], [3]],
      item_sparse_unique := some [[7], [8]],
      item_dense_unique := some [[(4 : Rat)], [6]],
      sparse_oov := [99], user_sparse_col_index := [0],
      item_sparse_col_index := [0] }
    [[10], [11], [12]] [[(1 : Rat)], [2], [3]] [[7], [8]] [[(4 : Rat)], [6]]
    2 1 1 1 rfl rfl rfl rfl (by decide) (by decide) (by decide) (by decide)
    (by decide) (by decide)
  exact h.1.1.trans (by decide)

/-- Modelled from the spec: the missing `popular_recommendations` helper
(`libreco/recommendation`, not under the provided sources) returns the head of
the stored popularity list — "Unknown users receive the global popularity
list"; `popular_items` (top-N most-interacted items). Ids are inner ids
(`inner_id=True`). -/
def popular_recommendations (popular_items : List Nat) (n_rec : Nat) : List Nat :=
  popular_items.take n_rec

/-- Modelled from the spec: the missing `filter_items` helper
(`libreco/recommendation/ranking.py`, not under the provided sources) —
"filters out items in the user's consumption set". -/
def filter_items (ids : List Nat) (preds : List Rat) (consumed : List Nat) :
    List Nat × List Rat :=
  let pairs := (ids.zip preds).filter (fun p => decide (p.1 ∉ consumed))
  (pairs.map Prod.fst, pairs.map Prod.snd)

instance decRelSndDesc {α : Type} : DecidableRel (fun a b : α × Rat => b.2 ≤ a.2) :=
  fun a b => inferInstanceAs (Decidable (b.2 ≤ a.2))

/-- `sorted(pairs, key=itemgetter(1), reverse=True)` /
`np.argsort(preds)[::-1]`: pairs sorted by descending second component. -/
def sortBySecondDesc {α : Type} (pairs : List (α × Rat)) : List (α × Rat) :=
  List.insertionSort (fun a b => b.2 ≤ a.2) pairs

/-- `CfBase.rank_recommendations`: filter consumed items if requested, fall
back to the popularity list when no candidate is left, otherwise sample
(`random.sample`, abstracted as the `sample` argument) or take the top
`n_rec` by descending score. The rate-limited diagnostic print does not
affect the returned list and is not part of this model. -/
def rank_recommendations (sample : List Nat → Nat → List Nat)
    (popular_items : List Nat) (ids : List Nat) (preds : List Rat)
    (n_rec : Nat) (consumed : List Nat)
    (filter_consumed random_rec : Bool) : List Nat :=
  let fp := if filter_consumed then filter_items ids preds consumed else (ids, preds)
  if fp.1.length = 0 then
    popular_recommendations popular_items n_rec
  else if random_rec ∧ fp.1.length > n_rec then
    sample fp.1 n_rec
  else
    ((sortBySecondDesc (fp.1.zip fp.2)).map Prod.fst).take n_rec

theorem not_consumed_of_mem_filter_items (x : Nat) (ids : List Nat)
    (preds : List Rat) (consumed : List Nat)
    (hx : x ∈ (filter_items ids preds consumed).1) : x ∉ consumed := by
  unfold filter_items at hx
  obtain ⟨p, hp, hpx⟩ := List.mem_map.mp hx
  have := (List.mem_filter.mp hp).2
  rw [hpx] at this
  exact of_decide_eq_true this

/-- C1 counterexample: user's single scored candidate (item 0) is consumed, so
filtering empties the list and the unfiltered popularity fallback `[0]` is
returned — but item 0 is in the consumption set. -/
theorem rank_recommendations_consumed_counterexample :
    rank_recommendations (fun l _ => l) [0, 1] [0] [(1 : Rat)] 1 [0] true false
      = [0]
    ∧ ¬ (∀ x ∈ rank_recommendations (fun l _ => l) [0, 1] [0] [(1 : Rat)] 1 [0]
          true false, x ∉ ([0] : List Nat)) :=
  ⟨by decide, by decide⟩

/-- C1 (amended): with `filter_consumed = true`, whenever at least one scored
candidate survives the consumption filter, the returned list contains no item
of the user's consumption set (for any sampling oracle drawing from its input,
which covers the `random_rec` branch); when no candidate survives, the
unfiltered popularity fallback is returned instead, and it may contain
consumed items. -/
theorem rank_recommendations_filters_consumed
    (sample : List Nat → Nat → List Nat)
    (hsample : ∀ l k, ∀ x ∈ sample l k, x ∈ l)
    (popular_items ids : List Nat) (preds : List Rat) (n_rec : Nat)
    (consumed : List Nat) (random_rec : Bool)
    (hne : (filter_items ids preds consumed).1 ≠ []) :
    ∀ x ∈ rank_recommendations sample popular_items ids preds n_rec consumed
        true random_rec, x ∉ consumed := by
  intro x hx
  unfold rank_recommendations at hx
  simp only [if_true, reduceIte] at hx
  rw [if_neg (fun h => hne (List.length_eq_zero.mp h))] at hx
  split_ifs at hx with hrand
  · exact not_consumed_of_mem_filter_items x ids preds consumed
      (hsample _ _ x hx)
  · have hx' := List.mem_of_mem_take hx
    obtain ⟨p, hp, hpx⟩ := List.mem_map.mp hx'
    have hpz : p ∈ (filter_items ids preds consumed).1.zip
        (filter_items ids preds consumed).2 :=
      (List.perm_insertionSort _ _).mem_iff.mp hp
    have : p.1 ∈ (filter_items ids preds consumed).1 :=
      (List.of_mem_zip (by rwa [show (p.1, p.2) = p from rfl])).1
    rw [hpx] at this
    exact not_consumed_of_mem_filter_items x ids preds consumed this

/-- Witness for C1 (amended): candidates `[3, 4]` with scores `[1, 2]`,
consumed `[3]`; candidate 4 survives and the returned item is not consumed. -/
theorem rank_recommendations_filters_consumed_witness :
    (filter_items [3, 4] [(1 : Rat), 2] [3]).1 ≠ []
    ∧ ∀ x ∈ rank_recommendations (fun l _ => l) [9] [3, 4] [(1 : Rat), 2] 1 [3]
        true false, x ∉ ([3] : List Nat) :=
  ⟨by decide,
   rank_recommendations_filters_consumed (fun l _ => l) (fun _ _ _ hx => hx)
     [9] [3, 4] [(1 : Rat), 2] 1 [3] false (by decide)⟩

/-- The observable outcome of one `CfBase.compute_pred` call: the returned
prediction, the updated `print_count` and whether the diagnostic warning was
printed. -/
structure PredOutcome where
  value : Rat
  print_count : Nat
  printed : Bool
deriving DecidableEq

/-- Sum of a list of rationals (`np.sum`). -/
def sumList (l : List Rat) : Rat := l.foldr (fun a b => a + b) 0

/-- `np.clip(x, lower, upper)`. -/
def clip (x lo hi : Rat) : Rat := min (max x lo) hi

/-- `CfBase.compute_pred`: with no common interaction or no positive common
similarity, bump the counter, print while the counter stays below 7 and
return the default prediction; otherwise keep the at most `k_sim` best
positive-similarity neighbors and return the weighted average (rating,
clipped) or the mean similarity (ranking). -/
def compute_pred (task : String) (default_pred lower_bound upper_bound : Rat)
    (k_sim print_count : Nat) (common_size : Nat)
    (common_sims common_labels : List Rat) : PredOutcome :=
  if common_size = 0 ∨ common_sims.all (fun s => decide (s ≤ 0)) = true then
    { value := default_pred, print_count := print_count + 1,
      printed := decide (print_count + 1 < 7) }
  else
    let kept := ((sortBySecondDesc (common_labels.zip common_sims)).takeWhile
        (fun p => decide (0 < p.2))).take k_sim
    if task = "rating" then
      { value := clip (sumList (kept.map (fun p => p.1 * p.2))
            / sumList (kept.map Prod.snd)) lower_bound upper_bound,
        print_count := print_count, printed := false }
    else
      { value := sumList (kept.map Prod.snd) / (kept.length : Rat),
        print_count := print_count, printed := false }

/-- C5: for a pair with zero qualifying neighbors (no common interaction, or
all common similarities non-positive), `compute_pred` returns exactly the
configured default prediction, increments the counter, and prints the warning
exactly when this is one of the first 6 such occurrences on the instance
(the counter can only have been bumped further by the sibling
`rank_recommendations` fallback, which never makes it print later ones). -/
theorem compute_pred_default_on_no_neighbor (task : String)
    (default_pred lower_bound upper_bound : Rat)
    (k_sim print_count common_size : Nat) (common_sims common_labels : List Rat)
    (h : common_size = 0 ∨ common_sims.all (fun s => decide (s ≤ 0)) = true) :
    (compute_pred task default_pred lower_bound upper_bound k_sim print_count
        common_size common_sims common_labels).value = default_pred
    ∧ (compute_pred task default_pred lower_bound upper_bound k_sim print_count
        common_size common_sims common_labels).print_count = print_count + 1
    ∧ ((compute_pred task default_pred lower_bound upper_bound k_sim print_count
        common_size common_sims common_labels).printed = true
        ↔ print_count + 1 < 7) := by
  unfold compute_pred
  rw [if_pos h]
  exact ⟨rfl, rfl, by simp⟩

/-- Witness for C5: both trigger conditions at a concrete input — an empty
common set, and a non-empty one whose similarities are all `≤ 0`; the first
occurrence (`print_count = 0`) prints, the seventh (`print_count = 6`) does
not. -/
theorem compute_pred_default_on_no_neighbor_witness :
    ((0 : Nat) = 0 ∨ ([] : List Rat).all (fun s => decide (s ≤ 0)) = true)
    ∧ (compute_pred "rating" (37 : Rat) 1 5 20 0 0 [] []).value = 37
    ∧ (compute_pred "rating" (37 : Rat) 1 5 20 0 0 [] []).printed = true
    ∧ ((2 : Nat) = 0 ∨ ([(-1 : Rat), 0]).all (fun s => decide (s ≤ 0)) = true)
    ∧ (compute_pred "ranking" (42 : Rat) 1 5 20 6 2 [(-1 : Rat), 0]
        [(3 : Rat), 4]).printed = false := by
  refine ⟨Or.inl rfl, ?_, ?_, ?_, ?_⟩
  · exact (compute_pred_default_on_no_neighbor "rating" 37 1 5 20 0 0 [] []
      (Or.inl rfl)).1
  · have h := (compute_pred_default_on_no_neighbor "rating" 37 1 5 20 0 0 [] []
      (Or.inl rfl)).2.2
    exact h.mpr (by decide)
  · exact Or.inr (by decide)
  · have h := (compute_pred_default_on_no_neighbor "ranking" 42 1 5 20 6 2
      [(-1 : Rat), 0] [(3 : Rat), 4] (Or.inr (by decide))).2.2
    cases hp : (compute_pred "ranking" (42 : Rat) 1 5 20 6 2 [(-1 : Rat), 0]
        [(3 : Rat), 4]).printed
    · rfl
    · exact absurd (h.mp hp) (by decide)

/-- Modelled from the spec: the missing `check_unknown_user` helper
(`libreco/utils/validate.py`, not under the provided sources) splits the
requested user ids into those known to the index and those absent from it
("any externally-supplied user/item id not present in IdentifierIndex is
unknown"). -/
def check_unknown_user (user_unique_vals : List Int) (users : List Int) :
    List Int × List Int :=
  (users.filter (fun u => decide (u ∈ user_unique_vals)),
   users.filter (fun u => decide (u ∉ user_unique_vals)))

/-- Modelled from the spec: the missing `check_unknown` helper
(`libreco/utils/validate.py`, not under the provided sources) counts the
requested user and item ids absent from the index. -/
def check_unknown (user_unique_vals item_unique_vals : List Int)
    (users items : List Int) : Nat :=
  (users.filter (fun u => decide (u ∉ user_unique_vals))).length
    + (items.filter (fun i => decide (i ∉ item_unique_vals))).length

/-- `CfBase.pre_predict_check`: raise unless every requested id is known or
the cold-start strategy is `"popular"`. -/
def pre_predict_check (user_unique_vals item_unique_vals : List Int)
    (user item : Int) (cold_start : String) : Except String (Int × Int) :=
  if check_unknown user_unique_vals item_unique_vals [user] [item] > 0
      ∧ cold_start ≠ "popular" then
    Except.error "only supports popular strategy"
  else Except.ok (user, item)

/-- `CfBase.recommend_user` for a single requested user: unknown users get the
popularity list under the `"popular"` strategy and raise under any other
strategy; known users get the abstract per-model `recommend_one` (the
`recOne` argument). The result dictionary is an association list in insertion
order (unknown entries first, as in the source). -/
def recommend_user (recOne : Int → List Nat) (user_unique_vals : List Int)
    (popular_items : List Nat) (user : Int) (n_rec : Nat) (cold_start : String) :
    Except String (List (Int × List Nat)) :=
  if (check_unknown_user user_unique_vals [user]).2.length > 0
      ∧ cold_start ≠ "popular" then
    Except.error "only supports popular cold start strategy"
  else
    Except.ok
      ((check_unknown_user user_unique_vals [user]).2.map
          (fun u => (u, popular_recommendations popular_items n_rec))
        ++ (check_unknown_user user_unique_vals [user]).1.map
          (fun u => (u, recOne u)))

/-- C6: with at least one unknown id and any cold-start strategy other than
`"popular"`, both `recommend_user` (unknown user) and `pre_predict_check`
(unknown user or unknown item) fail with the unsupported-strategy error
instead of returning a result. -/
theorem unknown_id_requires_popular_strategy
    (recOne : Int → List Nat) (uvals ivals : List Int) (popular_items : List Nat)
    (user item : Int) (n_rec : Nat) (cold_start : String)
    (hcs : cold_start ≠ "popular") :
    (user ∉ uvals →
      recommend_user recOne uvals popular_items user n_rec cold_start
        = Except.error "only supports popular cold start strategy")
    ∧ (user ∉ uvals ∨ item ∉ ivals →
      pre_predict_check uvals ivals user item cold_start
        = Except.error "only supports popular strategy") := by
  constructor
  · intro hu
    unfold recommend_user check_unknown_user
    rw [if_pos]
    refine ⟨?_, hcs⟩
    simp [hu]
  · intro h
    unfold pre_predict_check check_unknown
    rw [if_pos]
    refine ⟨?_, hcs⟩
    rcases h with hu | hi
    · have : (List.filter (fun u => decide (u ∉ uvals)) [user]).length = 1 := by
        simp [hu]
      omega
    · have : (List.filter (fun i => decide (i ∉ ivals)) [item]).length = 1 := by
        simp [hi]
      omega

/-- Witness for C6: user `-99999` and item `-1` are absent from index
`[1, 2]`, and the `"average"` strategy is rejected by both entry points. -/
theorem unknown_id_requires_popular_strategy_witness :
    (("average" : String) ≠ "popular")
    ∧ ((-99999 : Int) ∉ ([1, 2] : List Int))
    ∧ recommend_user (fun _ => []) [1, 2] [0] (-99999) 3 "average"
        = Except.error "only supports popular cold start strategy"
    ∧ pre_predict_check [1, 2] [5] (-99999) (-1) "average"
        = Except.error "only supports popular strategy" := by
  have h := unknown_id_requires_popular_strategy (fun _ => []) [1, 2] [5] [0]
    (-99999) (-1) 3 "average" (by decide)
  exact ⟨by decide, by decide, h.1 (by decide), h.2 (Or.inl (by decide))⟩

/-- C7: for any two user ids both absent from the index, `recommend_user`
with `cold_start = "popular"` returns the popularity list for each, so the
recommendation lists are identical and independent of which unknown id was
supplied. -/
theorem cold_start_independent_of_unknown_id
    (recOne : Int → List Nat) (uvals : List Int) (popular_items : List Nat)
    (u1 u2 : Int) (n_rec : Nat) (h1 : u1 ∉ uvals) (h2 : u2 ∉ uvals) :
    recommend_user recOne uvals popular_items u1 n_rec "popular"
      = Except.ok [(u1, popular_recommendations popular_items n_rec)]
    ∧ recommend_user recOne uvals popular_items u2 n_rec "popular"
      = Except.ok [(u2, popular_recommendations popular_items n_rec)]
    ∧ (recommend_user recOne uvals popular_items u1 n_rec "popular").map
        (fun l => l.map Prod.snd)
      = (recommend_user recOne uvals popular_items u2 n_rec "popular").map
        (fun l => l.map Prod.snd) := by
  have e1 : recommend_user recOne uvals popular_items u1 n_rec "popular"
      = Except.ok [(u1, popular_recommendations popular_items n_rec)] := by
    unfold recommend_user check_unknown_user
    rw [if_neg (fun hc => hc.2 rfl)]
    simp [h1]
  have e2 : recommend_user recOne uvals popular_items u2 n_rec "popular"
      = Except.ok [(u2, popular_recommendations popular_items n_rec)] := by
    unfold recommend_user check_unknown_user
    rw [if_neg (fun hc => hc.2 rfl)]
    simp [h2]
  refine ⟨e1, e2, ?_⟩
  rw [e1, e2]
  rfl

/-- Witness for C7: ids `-99999` and `-1`, both absent from index `[1, 2]`,
produce the same recommendation list `[8, 9]`. -/
theorem cold_start_independent_of_unknown_id_witness :
    ((-99999 : Int) ∉ ([1, 2] : List Int)) ∧ ((-1 : Int) ∉ ([1, 2] : List Int))
    ∧ recommend_user (fun _ => []) [1, 2] [8, 9, 4] (-99999) 2 "popular"
        = Except.ok [(-99999, [8, 9])]
    ∧ recommend_user (fun _ => []) [1, 2] [8, 9, 4] (-1) 2 "popular"
        = Except.ok [(-1, [8, 9])] := by
  have h := cold_start_independent_of_unknown_id (fun _ => []) [1, 2] [8, 9, 4]
    (-99999) (-1) 2 (by decide) (by decide)
  exact ⟨by decide, by decide, h.1.trans (by rfl), h.2.1.trans (by rfl)⟩

/-- A feature data frame handed to `assign_user_features` /
`assign_item_features`: the `user`/`item` id column plus sparse and dense
feature columns accessed by name. -/
structure FeatFrame where
  ids : List Int
  scols : List (String × List Int)
  dcols : List (String × List Rat)
deriving DecidableEq

/-- Modelled from the spec: the missing `check_oov` helper (`libreco/feature`,
not under the provided sources) resolves each external id in the frame to its
inner id row, unseen ids falling back to the oov row index `n_entities`
(`List.indexOf` returns the length when the value is absent). -/
def check_oov_rows (unique_vals raw : List Int) : List Nat :=
  raw.map (fun v => unique_vals.indexOf v)

/-- Modelled from the spec: the missing `compute_sparse_feat_indices` helper
(`libreco/feature`, not under the provided sources) maps each raw category
value to the column's offset plus the category's index in the column's
unique values, "falling back to oov if unseen". -/
def compute_sparse_feat_indices (uniqueVals : List Int) (offset oov : Int)
    (vals : List Int) : List Int :=
  vals.map (fun v =>
    if v ∈ uniqueVals then offset + (uniqueVals.indexOf v : Int) else oov)

/-- Cell read `m[i, j]` with default `d` outside the matrix. -/
def getCell (d : α) (m : List (List α)) (i j : Nat) : α :=
  (m.getD i []).getD j d

/-- Cell write `m[i, j] = v`. -/
def setCell (m : List (List α)) (i j : Nat) (v : α) : List (List α) :=
  m.set i ((m.getD i []).set j v)

/-- numpy fancy assignment `m[row_idx, j] = vals` as elementwise cell writes. -/
def assignColumn (m : List (List α)) (rowIdx : List Nat) (vals : List α)
    (j : Nat) : List (List α) :=
  (rowIdx.zip vals).foldl (fun acc p => setCell acc p.1 j p.2) m

/-- The `for feat_idx, col in enumerate(col_info.name)` loop shared by
`assign_sparse_features` and `assign_dense_features`: `j` is the running
`feat_idx`; a column absent from the frame (`col not in data.columns`) is
skipped (`continue`); `colVals c j raw` computes the written values. -/
def assignColsFrom (colVals : String → Nat → List β → List α)
    (rowIdx : List Nat) (dataCols : List (String × List β)) :
    Nat → List String → List (List α) → List (List α)
  | _, [], m => m
  | j, c :: rest, m =>
    assignColsFrom colVals rowIdx dataCols (j + 1) rest
      (match dataCols.lookup c with
       | none => m
       | some raw => assignColumn m rowIdx (colVals c j raw) j)

/-- `compute_sparse_feat_indices(self, data, col_info.index[feat_idx], col)`:
the column's unique values come from `sparse_unique_vals`, its offset and oov
slot from `sparse_offset` / `sparse_oov` at the column's global index. -/
def sparseFeatForCol (st : DataState) (indices : List Nat) (c : String) (j : Nat)
    (raw : List Int) : List Int :=
  compute_sparse_feat_indices ((st.sparse_unique_vals.lookup c).getD [])
    (st.sparse_offset.getD (indices.getD j 0) 0)
    (st.sparse_oov.getD (indices.getD j 0) 0) raw

/-- `DataInfo.assign_sparse_features`: for every sparse column of the mode's
schema that is present in the frame, overwrite the rows addressed by the
frame's ids with the computed embedding indices; any mode other than
`"user"`/`"item"` raises `ValueError("mode must be user or item.")`. -/
def assign_sparse_features (st : DataState) (data : FeatFrame) (mode : String) :
    Except String DataState :=
  if mode = "user" then
    Except.ok { st with user_sparse_unique := st.user_sparse_unique.map (fun m =>
      assignColsFrom (fun c j raw => sparseFeatForCol st st.user_sparse_col_index c j raw)
        (check_oov_rows st.user_unique_vals data.ids) data.scols 0
        st.user_sparse_col_name m) }
  else if mode = "item" then
    Except.ok { st with item_sparse_unique := st.item_sparse_unique.map (fun m =>
      assignColsFrom (fun c j raw => sparseFeatForCol st st.item_sparse_col_index c j raw)
        (check_oov_rows st.item_unique_vals data.ids) data.scols 0
        st.item_sparse_col_name m) }
  else Except.error "mode must be user or item."

/-- `DataInfo.assign_dense_features`: the same loop for dense columns with the
raw values written unchanged; an invalid mode falls through silently (the
source has no `else` clause) and the state is returned unmodified. -/
def assign_dense_features (st : DataState) (data : FeatFrame) (mode : String) :
    Except String DataState :=
  if mode = "user" then
    Except.ok { st with user_dense_unique := st.user_dense_unique.map (fun m =>
      assignColsFrom (fun _ _ raw => raw)
        (check_oov_rows st.user_unique_vals data.ids) data.dcols 0
        st.user_dense_col_name m) }
  else if mode = "item" then
    Except.ok { st with item_dense_unique := st.item_dense_unique.map (fun m =>
      assignColsFrom (fun _ _ raw => raw)
        (check_oov_rows st.item_unique_vals data.ids) data.dcols 0
        st.item_dense_col_name m) }
  else Except.ok st

/-- `DataInfo.assign_user_features`: sparse assignment then dense assignment. -/
def assign_user_features (st : DataState) (user_data : FeatFrame) :
    Except String DataState :=
  match assign_sparse_features st user_data "user" with
  | Except.error e => Except.error e
  | Except.ok st1 => assign_dense_features st1 user_data "user"

/-- `DataInfo.assign_item_features`: sparse assignment then dense assignment. -/
def assign_item_features (st : DataState) (item_data : FeatFrame) :
    Except String DataState :=
  match assign_sparse_features st item_data "item" with
  | Except.error e => Except.error e
  | Except.ok st1 => assign_dense_features st1 item_data "item"

theorem getD_set_ne (l : List α) (i j : Nat) (a d : α) (h : i ≠ j) :
    (l.set i a).getD j d = l.getD j d := by
  simp [List.getElem?_set_ne h]

theorem getCell_setCell_ne (d v : α) (j j' : Nat) (h : j' ≠ j) :
    ∀ (m : List (List α)) (i i' : Nat),
      getCell d (setCell m i j v) i' j' = getCell d m i' j'
  | [], _, _ => rfl
  | r :: _, 0, 0 => getD_set_ne r j j' v d fun he => h he.symm
  | _ :: _, 0, _ + 1 => rfl
  | _ :: _, _ + 1, 0 => rfl
  | _ :: rs, i + 1, i' + 1 => getCell_setCell_ne d v j j' h rs i i'

theorem getCell_assignColumn_ne (d : α) (m : List (List α)) (rowIdx : List Nat)
    (vals : List α) (j i' j' : Nat) (h : j' ≠ j) :
    getCell d (assignColumn m rowIdx vals j) i' j' = getCell d m i' j' := by
  unfold assignColumn
  generalize rowIdx.zip vals = ps
  induction ps generalizing m with
  | nil => rfl
  | cons p ps ih =>
    show getCell d (List.foldl _ (setCell m p.1 j p.2) ps) i' j' = _
    rw [ih (setCell m p.1 j p.2)]
    exact getCell_setCell_ne d p.2 j j' h m p.1 i'

theorem getCell_assignColsFrom_absent {α β : Type} (d : α)
    (colVals : String → Nat → List β → List α) (rowIdx : List Nat)
    (dataCols : List (String × List β)) (i' jt : Nat) :
    ∀ (names : List String) (j : Nat) (m : List (List α)),
      (∀ k c, names[k]? = some c → j + k = jt → dataCols.lookup c = none) →
      getCell d (assignColsFrom colVals rowIdx dataCols j names m) i' jt
        = getCell d m i' jt := by
  intro names
  induction names with
  | nil => intro j m _; rfl
  | cons c rest ih =>
    intro j m hskip
    rw [assignColsFrom,
      ih (j + 1) _ (fun k c' hk hj => hskip (k + 1) c' (by simpa using hk) (by omega))]
    rcases hl : dataCols.lookup c with _ | raw
    · simp only [hl]
    · simp only [hl]
      by_cases hj : j = jt
      · have hnone := hskip 0 c (by simp) (by omega)
        rw [hl] at hnone
        exact absurd hnone (by simp)
      · exact getCell_assignColumn_ne d m rowIdx (colVals c j raw) j i' jt
          (Ne.symm hj)

/-- The user sparse matrix of a feature-assignment result. -/
def userSparseOf (r : Except String DataState) : Option (List (List Int)) :=
  match r with
  | Except.ok st => st.user_sparse_unique
  | Except.error _ => none

/-- The user dense matrix of a feature-assignment result. -/
def userDenseOf (r : Except String DataState) : Option (List (List Rat)) :=
  match r with
  | Except.ok st => st.user_dense_unique
  | Except.error _ => none

/-- The item sparse matrix of a feature-assignment result. -/
def itemSparseOf (r : Except String DataState) : Option (List (List Int)) :=
  match r with
  | Except.ok st => st.item_sparse_unique
  | Except.error _ => none

/-- The item dense matrix of a feature-assignment result. -/
def itemDenseOf (r : Except String DataState) : Option (List (List Rat)) :=
  match r with
  | Except.ok st => st.item_dense_unique
  | Except.error _ => none

/-- C9: a feature-assignment call leaves every matrix column whose schema
column name is absent from the incoming frame unchanged — only columns
present in the frame are overwritten. Stated for the sparse and dense user
matrices under `assign_user_features` and the sparse and dense item matrices
under `assign_item_features`. -/
theorem assign_features_skip_absent_columns
    (st : DataState) (data : FeatFrame) (jt i' : Nat) (c : String) :
    (∀ m mu, st.user_sparse_unique = some m →
      st.user_sparse_col_name[jt]? = some c → data.scols.lookup c = none →
      userSparseOf (assign_user_features st data) = some mu →
      getCell 0 mu i' jt = getCell 0 m i' jt)
    ∧ (∀ m mu, st.user_dense_unique = some m →
      st.user_dense_col_name[jt]? = some c → data.dcols.lookup c = none →
      userDenseOf (assign_user_features st data) = some mu →
      getCell (0 : Rat) mu i' jt = getCell (0 : Rat) m i' jt)
    ∧ (∀ m mu, st.item_sparse_unique = some m →
      st.item_sparse_col_name[jt]? = some c → data.scols.lookup c = none →
      itemSparseOf (assign_item_features st data) = some mu →
      getCell 0 mu i' jt = getCell 0 m i' jt)
    ∧ (∀ m mu, st.item_dense_unique = some m →
      st.item_dense_col_name[jt]? = some c → data.dcols.lookup c = none →
      itemDenseOf (assign_item_features st data) = some mu →
      getCell (0 : Rat) mu i' jt = getCell (0 : Rat) m i' jt) := by
  have hus : userSparseOf (assign_user_features st data)
      = st.user_sparse_unique.map (fun m =>
        assignColsFrom (fun c' j raw =>
            sparseFeatForCol st st.user_sparse_col_index c' j raw)
          (check_oov_rows st.user_unique_vals data.ids) data.scols 0
          st.user_sparse_col_name m) := rfl
  have hud : userDenseOf (assign_user_features st data)
      = st.user_dense_unique.map (fun m =>
        assignColsFrom (fun _ _ raw => raw)
          (check_oov_rows st.user_unique_vals data.ids) data.dcols 0
          st.user_dense_col_name m) := rfl
  have his : itemSparseOf (assign_item_features st data)
      = st.item_sparse_unique.map (fun m =>
        assignColsFrom (fun c' j raw =>
            sparseFeatForCol st st.item_sparse_col_index c' j raw)
          (check_oov_rows st.item_unique_vals data.ids) data.scols 0
          st.item_sparse_col_name m) := rfl
  have hid : itemDenseOf (assign_item_features st data)
      = st.item_dense_unique.map (fun m =>
        assignColsFrom (fun _ _ raw => raw)
          (check_oov_rows st.item_unique_vals data.ids) data.dcols 0
          st.item_dense_col_name m) := rfl
  refine ⟨?_, ?_, ?_, ?_⟩
  · intro m mu hm hcn hlk hmu
    rw [hus, hm, Option.map_some'] at hmu
    rw [← Option.some.inj hmu]
    exact getCell_assignColsFrom_absent _ _ _ _ i' jt _ 0 m
      (fun k c' hk hj => by
        have hkj : k = jt := by omega
        subst hkj
        rw [hcn] at hk
        rw [← Option.some.inj hk]
        exact hlk)
  · intro m mu hm hcn hlk hmu
    rw [hud, hm, Option.map_some'] at hmu
    rw [← Option.some.inj hmu]
    exact getCell_assignColsFrom_absent _ _ _ _ i' jt _ 0 m
      (fun k c' hk hj => by
        have hkj : k = jt := by omega
        subst hkj
        rw [hcn] at hk
        rw [← Option.some.inj hk]
        exact hlk)
  · intro m mu hm hcn hlk hmu
    rw [his, hm, Option.map_some'] at hmu
    rw [← Option.some.inj hmu]
    exact getCell_assignColsFrom_absent _ _ _ _ i' jt _ 0 m
      (fun k c' hk hj => by
        have hkj : k = jt := by omega
        subst hkj
        rw [hcn] at hk
        rw [← Option.some.inj hk]
        exact hlk)
  · intro m mu hm hcn hlk hmu
    rw [hid, hm, Option.map_some'] at hmu
    rw [← Option.some.inj hmu]
    exact getCell_assignColsFrom_absent _ _ _ _ i' jt _ 0 m
      (fun k c' hk hj => by
        have hkj : k = jt := by omega
        subst hkj
        rw [hcn] at hk
        rw [← Option.some.inj hk]
        exact hlk)

/-- Witness for C9 at a concrete state: schema columns `["a", "b"]`, frame
carrying only column `"b"`; after assignment, column 0 (`"a"`) keeps its old
value in the user sparse matrix, and for the item matrices (whose only column
`"a"` is absent) everything stays put. -/
theorem assign_features_skip_absent_columns_witness :
    (["a", "b"] : List String)[0]? = some "a"
    ∧ ([("b", [7])] : List (String × List Int)).lookup "a" = none
    ∧ ([("b", [(11 : Rat)])] : List (String × List Rat)).lookup "a" = none
    ∧ getCell (0 : Int) [[5, 3], [8, 9]] 0 0
        = getCell (0 : Int) [[5, 6], [8, 9]] 0 0
    ∧ getCell (0 : Rat) [[9]] 0 0 = getCell (0 : Rat) [[9]] 0 0 := by
  have h := assign_features_skip_absent_columns
    { user_unique_vals := [1, 2], item_unique_vals := [3],
      user_sparse_unique := some [[5, 6], [8, 9]],
      user_dense_unique := some [[(1 : Rat), 7], [2, 8]],
      item_sparse_unique := some [[4]],
      item_dense_unique := some [[(9 : Rat)]],
      sparse_unique_vals := [("b", [7])],
      sparse_offset := [0, 3], sparse_oov := [2, 5],
      user_sparse_col_name := ["a", "b"], user_sparse_col_index := [0, 1],
      item_sparse_col_name := ["a"], item_sparse_col_index := [0],
      user_dense_col_name := ["a", "b"], item_dense_col_name := ["a"] }
    { ids := [1], scols := [("b", [7])], dcols := [("b", [(11 : Rat)])] }
    0 0 "a"
  refine ⟨by decide, by decide, by decide, ?_, ?_⟩
  · exact h.1 [[5, 6], [8, 9]] [[5, 3], [8, 9]] rfl (by decide) (by decide)
      (by decide)
  · exact h.2.2.2 [[(9 : Rat)]] [[9]] rfl (by decide) (by decide) (by rfl)

/-- C10: for every mode other than `"user"` and `"item"`,
`assign_sparse_features` raises `ValueError("mode must be user or item.")`
while `assign_dense_features` returns silently without modifying any state. -/
theorem invalid_mode_sparse_raises_dense_silent
    (st : DataState) (data : FeatFrame) (mode : String)
    (h1 : mode ≠ "user") (h2 : mode ≠ "item") :
    assign_sparse_features st data mode
      = Except.error "mode must be user or item."
    ∧ assign_dense_features st data mode = Except.ok st := by
  constructor
  · unfold assign_sparse_features
    rw [if_neg h1, if_neg h2]
  · unfold assign_dense_features
    rw [if_neg h1, if_neg h2]

/-- Witness for C10 at the invalid mode `"foo"` on a concrete state. -/
theorem invalid_mode_sparse_raises_dense_silent_witness :
    (("foo" : String) ≠ "user") ∧ (("foo" : String) ≠ "item")
    ∧ assign_sparse_features { user_unique_vals := [1] }
        { ids := [1], scols := [], dcols := [] } "foo"
      = Except.error "mode must be user or item."
    ∧ assign_dense_features { user_unique_vals := [1] }
        { ids := [1], scols := [], dcols := [] } "foo"
      = Except.ok { user_unique_vals := [1] } := by
  have h := invalid_mode_sparse_raises_dense_silent { user_unique_vals := [1] }
    { ids := [1], scols := [], dcols := [] } "foo" (by decide) (by decide)
  exact ⟨by decide, by decide, h.1, h.2⟩

/-- One step of the missing `interaction_consumed` pass: append `v` to the
entry of key `k`, or open a new entry at the end. -/
def insertPair (acc : List (Nat × List Nat)) (k v : Nat) : List (Nat × List Nat) :=
  match acc with
  | [] => [(k, [v])]
  | (k', vs) :: rest =>
    if k = k' then (k', vs ++ [v]) :: rest else (k', vs) :: insertPair rest k v

/-- Group key-value pairs into an association list, keys in first-seen order,
each key's values in source order with duplicates preserved. -/
def groupPairs (ps : List (Nat × Nat)) : List (Nat × List Nat) :=
  ps.foldl (fun acc p => insertPair acc p.1 p.2) []

/-- Modelled from the spec: the missing `interaction_consumed` helper
(`libreco/feature`, not under the provided sources) — "single pass grouping by
user then by item"; every (user, item) pair appears in both directions, order
reflects first-seen sequence, duplicates preserved. -/
def interaction_consumed (uids iids : List Nat) :
    List (Nat × List Nat) × List (Nat × List Nat) :=
  (groupPairs (uids.zip iids), groupPairs (iids.zip uids))

/-- The data `DataInfo.save` writes (npz archive plus the name-mapping json):
every constructor argument held in `all_args` — modelled as the current
fields, `all_args` being in sync after construction or `store_args` — plus
the interaction index arrays. The consumption indices are not stored; `load`
recomputes them. -/
structure SavedInfo where
  user_unique_vals : List Int
  item_unique_vals : List Int
  user_sparse_unique : Option (List (List Int))
  user_dense_unique : Option (List (List Rat))
  item_sparse_unique : Option (List (List Int))
  item_dense_unique : Option (List (List Rat))
  sparse_unique_vals : List (String × List Int)
  multi_sparse_unique_vals : List (String × List Int)
  sparse_offset : List Int
  sparse_oov : List Int
  user_sparse_col_name : List String
  user_sparse_col_index : List Nat
  item_sparse_col_name : List String
  item_sparse_col_index : List Nat
  user_dense_col_name : List String
  item_dense_col_name : List String
  user_indices : List Nat
  item_indices : List Nat
deriving DecidableEq

/-- `DataInfo.save(path, model_name)`: the file output as a record (the
`np.savez_compressed` archive and the json name mapping). -/
def DataInfo_save (st : DataState) : SavedInfo :=
  { user_unique_vals := st.user_unique_vals
    item_unique_vals := st.item_unique_vals
    user_sparse_unique := st.user_sparse_unique
    user_dense_unique := st.user_dense_unique
    item_sparse_unique := st.item_sparse_unique
    item_dense_unique := st.item_dense_unique
    sparse_unique_vals := st.sparse_unique_vals
    multi_sparse_unique_vals := st.multi_sparse_unique_vals
    sparse_offset := st.sparse_offset
    sparse_oov := st.sparse_oov
    user_sparse_col_name := st.user_sparse_col_name
    user_sparse_col_index := st.user_sparse_col_index
    item_sparse_col_name := st.item_sparse_col_name
    item_sparse_col_index := st.item_sparse_col_index
    user_dense_col_name := st.user_dense_col_name
    item_dense_col_name := st.item_dense_col_name
    user_indices := st.user_indices
    item_indices := st.item_indices }

/-- `DataInfo.load(path, model_name)`: rebuilds the object through the
constructor — the consumption indices are recomputed by
`interaction_consumed` from the stored index arrays, the derived id mappings
from the unique-value arrays, and `add_oov` runs at the end of `__init__`
(appending oov rows only to a matrix whose row count equals the entity
count, i.e. one saved without its oov row). -/
def DataInfo_load (s : SavedInfo) : DataState :=
  add_oov
    { user_unique_vals := s.user_unique_vals
      item_unique_vals := s.item_unique_vals
      user_sparse_unique := s.user_sparse_unique
      user_dense_unique := s.user_dense_unique
      item_sparse_unique := s.item_sparse_unique
      item_dense_unique := s.item_dense_unique
      sparse_unique_vals := s.sparse_unique_vals
      multi_sparse_unique_vals := s.multi_sparse_unique_vals
      sparse_offset := s.sparse_offset
      sparse_oov := s.sparse_oov
      user_sparse_col_name := s.user_sparse_col_name
      user_sparse_col_index := s.user_sparse_col_index
      item_sparse_col_name := s.item_sparse_col_name
      item_sparse_col_index := s.item_sparse_col_index
      user_dense_col_name := s.user_dense_col_name
      item_dense_col_name := s.item_dense_col_name
      user_indices := s.user_indices
      item_indices := s.item_indices
      user_consumed := (interaction_consumed s.user_indices s.item_indices).1
      item_consumed := (interaction_consumed s.user_indices s.item_indices).2 }

theorem addOovUserSparse_skip (st : DataState)
    (h : ∀ m, st.user_sparse_unique = some m → m.length ≠ st.n_users) :
    addOovUserSparse st = st := by
  rcases hm : st.user_sparse_unique with _ | m
  · simp [addOovUserSparse, hm]
  · simp [addOovUserSparse, hm, h m hm]

theorem addOovItemSparse_skip (st : DataState)
    (h : ∀ m, st.item_sparse_unique = some m → m.length ≠ st.n_items) :
    addOovItemSparse st = st := by
  rcases hm : st.item_sparse_unique with _ | m
  · simp [addOovItemSparse, hm]
  · simp [addOovItemSparse, hm, h m hm]

theorem addOovUserDense_skip (st : DataState)
    (h : ∀ m, st.user_dense_unique = some m → m.length ≠ st.n_users) :
    addOovUserDense st = st := by
  rcases hm : st.user_dense_unique with _ | m
  · simp [addOovUserDense, hm]
  · simp [addOovUserDense, hm, h m hm]

theorem addOovItemDense_skip (st : DataState)
    (h : ∀ m, st.item_dense_unique = some m → m.length ≠ st.n_items) :
    addOovItemDense st = st := by
  rcases hm : st.item_dense_unique with _ | m
  · simp [addOovItemDense, hm]
  · simp [addOovItemDense, hm, h m hm]

theorem add_oov_skip (st : DataState)
    (h1 : ∀ m, st.user_sparse_unique = some m → m.length ≠ st.n_users)
    (h2 : ∀ m, st.user_dense_unique = some m → m.length ≠ st.n_users)
    (h3 : ∀ m, st.item_sparse_unique = some m → m.length ≠ st.n_items)
    (h4 : ∀ m, st.item_dense_unique = some m → m.length ≠ st.n_items) :
    add_oov st = st := by
  unfold add_oov
  rw [addOovUserSparse_skip st h1, addOovItemSparse_skip st h3,
    addOovUserDense_skip st h2, addOovItemDense_skip st h4]

/-- C4: `save` then `load` reproduces the `user2id` / `item2id` mappings, all
four unique feature matrices and both consumption indices, for every state
whose consumption indices derive from its stored interaction index arrays
(as the constructor guarantees) and whose matrices carry their trailing oov
row (`n_entities + 1` rows, so `add_oov` at load time changes nothing). -/
theorem save_load_round_trip (st : DataState)
    (hc1 : st.user_consumed
      = (interaction_consumed st.user_indices st.item_indices).1)
    (hc2 : st.item_consumed
      = (interaction_consumed st.user_indices st.item_indices).2)
    (h1 : ∀ m, st.user_sparse_unique = some m → m.length = st.n_users + 1)
    (h2 : ∀ m, st.user_dense_unique = some m → m.length = st.n_users + 1)
    (h3 : ∀ m, st.item_sparse_unique = some m → m.length = st.n_items + 1)
    (h4 : ∀ m, st.item_dense_unique = some m → m.length = st.n_items + 1) :
    (DataInfo_load (DataInfo_save st)).user2id = st.user2id
    ∧ (DataInfo_load (DataInfo_save st)).item2id = st.item2id
    ∧ (DataInfo_load (DataInfo_save st)).user_sparse_unique
        = st.user_sparse_unique
    ∧ (DataInfo_load (DataInfo_save st)).user_dense_unique
        = st.user_dense_unique
    ∧ (DataInfo_load (DataInfo_save st)).item_sparse_unique
        = st.item_sparse_unique
    ∧ (DataInfo_load (DataInfo_save st)).item_dense_unique
        = st.item_dense_unique
    ∧ (DataInfo_load (DataInfo_save st)).user_consumed = st.user_consumed
    ∧ (DataInfo_load (DataInfo_save st)).item_consumed = st.item_consumed := by
  have hload : DataInfo_load (DataInfo_save st) = add_oov st := by
    unfold DataInfo_load DataInfo_save
    congr 1
    rw [← hc1, ← hc2]
  have hskip : add_oov st = st :=
    add_oov_skip st
      (fun m hm => by rw [h1 m hm]; omega)
      (fun m hm => by rw [h2 m hm]; omega)
      (fun m hm => by rw [h3 m hm]; omega)
      (fun m hm => by rw [h4 m hm]; omega)
  rw [hload, hskip]
  exact ⟨rfl, rfl, rfl, rfl, rfl, rfl, rfl, rfl⟩

/-- Witness for C4 at a concrete state: two users, three items, interactions
`(0, 1), (1, 0), (0, 2)`, a user sparse matrix with its oov row. -/
theorem save_load_round_trip_witness :
    ({ user_unique_vals := [5, 6], item_unique_vals := [7, 8, 9],
       user_sparse_unique := some [[1], [2], [3]],
       user_indices := [0, 1, 0], item_indices := [1, 0, 2],
       user_consumed := [(0, [1, 2]), (1, [0])],
       item_consumed := [(1, [0]), (0, [1]), (2, [0])] : DataState }).user_consumed
      = (interaction_consumed [0, 1, 0] [1, 0, 2]).1
    ∧ (DataInfo_load (DataInfo_save
        { user_unique_vals := [5, 6], item_unique_vals := [7, 8, 9],
          user_sparse_unique := some [[1], [2], [3]],
          user_indices := [0, 1, 0], item_indices := [1, 0, 2],
          user_consumed := [(0, [1, 2]), (1, [0])],
          item_consumed := [(1, [0]), (0, [1]), (2, [0])] })).user_sparse_unique
      = some [[1], [2], [3]]
    ∧ (DataInfo_load (DataInfo_save
        { user_unique_vals := [5, 6], item_unique_vals := [7, 8, 9],
          user_sparse_unique := some [[1], [2], [3]],
          user_indices := [0, 1, 0], item_indices := [1, 0, 2],
          user_consumed := [(0, [1, 2]), (1, [0])],
          item_consumed := [(1, [0]), (0, [1]), (2, [0])] })).user_consumed
      = [(0, [1, 2]), (1, [0])] := by
  have h := save_load_round_trip
    { user_unique_vals := [5, 6], item_unique_vals := [7, 8, 9],
      user_sparse_unique := some [[1], [2], [3]],
      user_indices := [0, 1, 0], item_indices := [1, 0, 2],
      user_consumed := [(0, [1, 2]), (1, [0])],
      item_consumed := [(1, [0]), (0, [1]), (2, [0])] }
    (by decide) (by decide)
    (fun m hm => by rw [← Option.some.inj hm]; decide)
    (fun m hm => by cases hm)
    (fun m hm => by cases hm)
    (fun m hm => by cases hm)
  exact ⟨by decide, h.2.2.1, h.2.2.2.2.2.2.1.trans (by decide)⟩

end LibRec
